import Mathlib

/-!
Shallow embedding of the rust-microservices repository: an API gateway
(api-service/src/proxy.rs), an identity service (auth-service: handlers.rs,
jwt.rs, store.rs), a resource service (data-service/src/main.rs) and a login
status endpoint (test-service/src/main.rs).

External collaborators are modelled symbolically, following the code structure:
JWT strings as an inductive type whose `signed` constructor is the image of
jsonwebtoken encoding, Redis as a key/value state with explicit failure flags
for connection, write and read, and the argon2 hashing capability as function
parameters (the specification treats hashing as an opaque capability).
-/

namespace RustMicro

/-- HTTP status codes used by the services (axum StatusCode values). -/
inductive Status where
  | ok
  | created
  | badRequest
  | unauthorized
  | notFound
  | conflict
  | internalServerError
  | badGateway
  deriving DecidableEq, Repr

/-- JWT claims, shared by auth-service/src/jwt.rs, data-service and test-service. -/
structure Claims where
  sub : String
  email : String
  exp : Nat
  deriving DecidableEq, Repr

/-- Symbolic model of a JWT token string. `signed c key` is the string produced
    by jsonwebtoken encode of claims `c` under secret `key` (the encoding is
    injective, so the string is identified with its preimage); `garbage s` is
    any string that is not a well-formed signed token. -/
inductive TokenStr where
  | signed (c : Claims) (key : String)
  | garbage (s : String)
  deriving DecidableEq, Repr

/-- Failure cases of jsonwebtoken decode, distinguished only for logging. -/
inductive JwtError where
  | malformed
  | badSignature
  | expired
  deriving DecidableEq, Repr

/-- jsonwebtoken decode with default validation: structural parse, signature
    check against `secret`, embedded expiry check against `now`. -/
def decodeJwt (t : TokenStr) (secret : String) (now : Nat) : Except JwtError Claims :=
  match t with
  | .garbage _ => .error .malformed
  | .signed c key =>
      if key ≠ secret then .error .badSignature
      else if c.exp ≤ now then .error .expired
      else .ok c

/-- auth-service/src/jwt.rs `create_jwt`: claims with `sub` the user id,
    `email`, and `exp = now + 3600` (one hour), encoded under `secret`.
    Uuid values are modelled as Nat. -/
def create_jwt (user_id : Nat) (email : String) (secret : String) (now : Nat) : TokenStr :=
  .signed { sub := toString user_id, email := email, exp := now + 3600 } secret

/-- One Redis entry: key (an exact token string), value, time-to-live in seconds. -/
structure RedisEntry where
  key : TokenStr
  value : String
  ttl : Nat
  deriving DecidableEq, Repr

/-- Model of an open Redis connection: the stored entries together with failure
    flags that say whether a write (set_ex) or a read (exists) command would
    fail on this connection. -/
structure RedisConn where
  writeFail : Bool
  readFail : Bool
  entries : List RedisEntry
  deriving DecidableEq, Repr

/-- Model of redis::Client: `get_connection` may fail (connFail). -/
structure RedisClient where
  connFail : Bool
  conn : RedisConn
  deriving DecidableEq, Repr

/-- redis::Client::get_connection. -/
def RedisClient.get_connection (c : RedisClient) : Except Unit RedisConn :=
  if c.connFail then .error () else .ok c.conn

/-- redis SET key value EX ttl (redis::Commands::set_ex): overwrite-if-exists. -/
def RedisConn.set_ex (c : RedisConn) (k : TokenStr) (v : String) (ttl : Nat) :
    Except Unit RedisConn :=
  if c.writeFail then .error ()
  else .ok { c with entries := ⟨k, v, ttl⟩ :: c.entries.filter (fun e => e.key ≠ k) }

/-- redis EXISTS key (redis::Commands::exists). -/
def RedisConn.existsKey (c : RedisConn) (k : TokenStr) : Except Unit Bool :=
  if c.readFail then .error ()
  else .ok (c.entries.any (fun e => e.key == k))

/-- auth-service/src/store.rs `User`. Uuid modelled as Nat; the credential
    digest is an opaque string. -/
structure User where
  id : Nat
  email : String
  password_hash : String
  deriving DecidableEq, Repr

/-- The in-memory user directory HashMap(String, User), modelled as an
    association list with map semantics: lookup by key, insert overwrites. -/
abbrev Users := List (String × User)

/-- HashMap::contains_key. -/
def containsKey (m : Users) (k : String) : Bool :=
  m.any (fun p => p.1 == k)

/-- HashMap::get. -/
def getUser (m : Users) (k : String) : Option User :=
  (m.find? (fun p => p.1 == k)).map (fun p => p.2)

/-- HashMap::insert (overwrites an existing binding for the key). -/
def insertUser (m : Users) (k : String) (v : User) : Users :=
  (k, v) :: m.filter (fun p => p.1 != k)

/-- Request body of POST /api/register. -/
structure RegisterRequest where
  email : String
  password : String
  deriving DecidableEq, Repr

/-- Request body of POST /api/login. -/
structure LoginRequest where
  email : String
  password : String
  deriving DecidableEq, Repr

/-- Response body of a successful login. -/
structure AuthResponse where
  access_token : TokenStr
  deriving DecidableEq, Repr

/-- auth-service/src/handlers.rs `register`. `uuid` stands for the value of
    Uuid::new_v4(), `hashFn` for the external argon2 hash_password capability.
    Returns the handler result together with the directory after the call. -/
def register (users : Users) (uuid : Nat) (hashFn : String → String)
    (req : RegisterRequest) : Except Status Status × Users :=
  if containsKey users req.email then (.error .conflict, users)
  else
    let user : User := { id := uuid, email := req.email, password_hash := hashFn req.password }
    (.ok .created, insertUser users req.email user)

/-- auth-service/src/handlers.rs `login`. `verifyFn` is the external argon2
    verify_password capability and `now` the current UNIX time. On success the
    result carries the response and the Redis connection state after the
    session record write. -/
def login (users : Users) (jwt_secret : String) (redis : RedisClient)
    (verifyFn : String → String → Bool) (now : Nat) (req : LoginRequest) :
    Except Status (AuthResponse × RedisConn) :=
  match getUser users req.email with
  | none => .error .unauthorized
  | some user =>
    if ¬ verifyFn req.password user.password_hash then .error .unauthorized
    else
      let token := create_jwt user.id user.email jwt_secret now
      match redis.get_connection with
      | .error _ => .error .internalServerError
      | .ok conn =>
        match conn.set_ex token "valid" 172800 with
        | .error _ => .error .internalServerError
        | .ok conn2 => .ok ({ access_token := token }, conn2)

/-- ASCII content of an Authorization header: either a Bearer value carrying a
    token string (possibly the empty string, for the header "Bearer "), or a
    value without the Bearer prefix. -/
inductive AuthContent where
  | bearer (tok : TokenStr)
  | other (s : String)
  deriving DecidableEq, Repr

/-- An Authorization header value: valid ASCII with some content, or a value on
    which to_str fails. -/
inductive HeaderVal where
  | ascii (content : AuthContent)
  | nonAscii
  deriving DecidableEq, Repr

/-- One item of the mock payload of data-service. -/
structure MockItem where
  id : Int
  name : String
  description : String
  deriving DecidableEq, Repr

/-- The 200 payload of GET /api/data. -/
structure MockData where
  message : String
  user_email : String
  data : List MockItem
  deriving DecidableEq, Repr

/-- The mock payload data-service builds on success, echoing the verified email. -/
def mockPayload (email : String) : MockData :=
  { message := "Here is your mock data!"
    user_email := email
    data :=
      [ { id := 1, name := "Item 1", description := "This is the first mock item" }
      , { id := 2, name := "Item 2", description := "This is the second mock item" }
      , { id := 3, name := "Item 3", description := "This is the third mock item" } ] }

/-- data-service/src/main.rs `get_data`: extract bearer token (absent, non
    ASCII or non Bearer header gives 401), decode the JWT (failure gives 401),
    open a Redis connection (failure gives 500), check existence of the token
    key (command failure gives 500, absence gives 401), then serve the payload. -/
def get_data (jwt_secret : String) (redis : RedisClient) (now : Nat)
    (authHeader : Option HeaderVal) : Except Status MockData :=
  match authHeader with
  | none => .error .unauthorized
  | some .nonAscii => .error .unauthorized
  | some (.ascii (.other _)) => .error .unauthorized
  | some (.ascii (.bearer tok)) =>
    match decodeJwt tok jwt_secret now with
    | .error _ => .error .unauthorized
    | .ok claims =>
      match redis.get_connection with
      | .error _ => .error .internalServerError
      | .ok conn =>
        match conn.existsKey tok with
        | .error _ => .error .internalServerError
        | .ok false => .error .unauthorized
        | .ok true => .ok (mockPayload claims.email)

/-- Response body of GET /api/is-logged-in. -/
structure LoginStatus where
  is_logged_in : Bool
  user : Option String
  deriving DecidableEq, Repr

/-- The token string check_login extracts from the Authorization header: the
    empty string when the header is absent, when to_str fails (unwrap_or of the
    empty string) or when the value lacks the Bearer prefix. -/
def extractToken (h : Option HeaderVal) : TokenStr :=
  match h with
  | none => .garbage ""
  | some .nonAscii => .garbage ""
  | some (.ascii (.other _)) => .garbage ""
  | some (.ascii (.bearer tok)) => tok

/-- Whether a token string is the empty string. -/
def TokenStr.isEmptyStr : TokenStr → Bool
  | .garbage "" => true
  | _ => false

/-- test-service/src/main.rs `check_login`: always returns a LoginStatus body
    with HTTP 200 (the handler type admits no error status). An empty extracted
    token short-circuits to false/none; otherwise the JWT is decoded, success
    reporting the embedded email and failure reporting false/none. The Session
    Store is not consulted: the handler takes no Redis state at all. -/
def check_login (jwt_secret : String) (now : Nat) (authHeader : Option HeaderVal) :
    LoginStatus :=
  let token := extractToken authHeader
  if token.isEmptyStr then { is_logged_in := false, user := none }
  else
    match decodeJwt token jwt_secret now with
    | .ok c => { is_logged_in := true, user := some c.email }
    | .error _ => { is_logged_in := false, user := none }

/-! Gateway (api-service/src/proxy.rs). Paths and URLs are modelled as lists of
    characters so that prefix matching and stripping are structural. -/

/-- A path or URL, as a character sequence. -/
abbrev Str := List Char

/-- Literal string to character sequence. -/
def lit (s : String) : Str := s.data

/-- Gateway configuration: the three internal base URLs (api-service AppState). -/
structure GwConfig where
  auth_base_url : Str
  data_base_url : Str
  test_base_url : Str

/-- The inbound request as the gateway sees it: method, headers, and the
    outcome of reading the full body (axum to_bytes with limit usize::MAX,
    which either yields all the bytes or fails). -/
structure ProxyReq where
  method : String
  headers : List (String × String)
  bodyRead : Except Unit (List Nat)

/-- An upstream response: status, headers, and the outcome of reading its body. -/
structure UpstreamResp where
  status : Nat
  headers : List (String × String)
  bytesRead : Except Unit (List Nat)

/-- The response relayed to the client. -/
structure HttpResp where
  status : Nat
  headers : List (String × String)
  body : List Nat
  deriving DecidableEq, Repr

/-- The network as the gateway sees it: what the reqwest send of a request
    (target URL, method, headers, body) returns; an error models failure to
    reach or send to the upstream. -/
def Network := Str → String → List (String × String) → List Nat → Except Unit UpstreamResp

/-- Outcome of Response::builder().body(...): building the outbound response
    from status, headers and body may fail. -/
def Builder := Nat → List (String × String) → List Nat → Except Unit HttpResp

/-- The relay tail of proxy_request: read the upstream response body (failure
    gives 502) and rebuild it for the client (failure gives 500), copying
    status, headers and body. -/
def relay (build : Builder) (sent : Except Unit UpstreamResp) : Except Status HttpResp :=
  match sent with
  | .error _ => .error .badGateway
  | .ok resp =>
    match resp.bytesRead with
    | .error _ => .error .badGateway
    | .ok bytes =>
      match build resp.status resp.headers bytes with
      | .error _ => .error .internalServerError
      | .ok r => .ok r

/-- api-service/src/proxy.rs `proxy_request`: match the configured public
    prefixes /api/auth/, /api/data/, /api/test/; no match gives 404. On a
    match, strip the public service segment (drop of 9 characters, the length
    of the matched prefix without its trailing slash), prepend /api, and
    forward method, headers and the fully read body to the resolved base URL,
    then relay the upstream response. -/
def proxy_request (st : GwConfig) (net : Network) (build : Builder)
    (path : Str) (req : ProxyReq) : Except Status HttpResp :=
  let route : Option (Str × Str) :=
    if (lit "/api/auth/").isPrefixOf path then some (st.auth_base_url, path.drop 9)
    else if (lit "/api/data/").isPrefixOf path then some (st.data_base_url, path.drop 9)
    else if (lit "/api/test/").isPrefixOf path then some (st.test_base_url, path.drop 9)
    else none
  match route with
  | none => .error .notFound
  | some (base, service_path) =>
    let rewritten_path := lit "/api" ++ service_path
    let target_url := base ++ rewritten_path
    match req.bodyRead with
    | .error _ => .error .badRequest
    | .ok body_bytes =>
      relay build (net target_url req.method req.headers body_bytes)

/-! Lock scoping in the login handler (auth-service/src/handlers.rs). The
    MutexGuard on the user directory is taken on the first line of the handler
    and is never dropped explicitly, so under Rust scope rules it is released
    only when the handler returns. The success path of login is embedded as the
    sequence of its operations in source order, and lock tenure is computed
    over that sequence. -/

/-- The operations of the login success path, in source order. -/
inductive LoginEvent where
  | lockAcquire
  | userLookup
  | passwordVerify
  | jwtCreate
  | redisConnect
  | redisWrite
  | lockRelease
  deriving DecidableEq, Repr

/-- The success path of login as executed: the directory lock is acquired
    first, the guard is dropped at handler return, after the two Redis calls. -/
def loginSuccessTrace : List LoginEvent :=
  [ .lockAcquire, .userLookup, .passwordVerify, .jwtCreate
  , .redisConnect, .redisWrite, .lockRelease ]

/-- Which login events are network round-trips (to the Session Store). -/
def LoginEvent.isNetworkCall : LoginEvent → Bool
  | .redisConnect => true
  | .redisWrite => true
  | _ => false

/-- Whether the directory lock is held when event `e` is executed, given the
    current held flag: scan the trace to the first occurrence of `e`. -/
def lockHeldAtAux (held : Bool) : List LoginEvent → LoginEvent → Bool
  | [], _ => false
  | ev :: tr, e =>
    if ev = e then held
    else
      lockHeldAtAux
        (if ev = .lockAcquire then true else if ev = .lockRelease then false else held)
        tr e

/-- Whether the directory lock is held when event `e` is executed in trace `tr`. -/
def lockHeldAt (tr : List LoginEvent) (e : LoginEvent) : Bool :=
  lockHeldAtAux false tr e

/-! Helper lemmas about the user directory and list prefixes. -/

/-- A list is a Boolean prefix of itself followed by anything. -/
lemma isPrefixOf_append_self (l1 l2 : Str) : l1.isPrefixOf (l1 ++ l2) = true := by
  rw [ List.isPrefixOf_iff_prefix]
  exact List.prefix_append l1 l2

/-- Inserting under a key not present in the directory is a plain cons. -/
lemma insertUser_of_not_containsKey (m : Users) (k : String) (v : User)
    (h : containsKey m k = false) : insertUser m k v = (k, v) :: m := by
  have hall : ∀ p ∈ m, (p.1 == k) = false := by
    intro p hp
    have := List.any_eq_false.mp h p hp
    simpa using this
  unfold insertUser
  rw [List.filter_eq_self.mpr]
  intro p hp
  simp [bne, hall p hp]

/-- A key just inserted is reported present. -/
lemma containsKey_cons_self (m : Users) (k : String) (v : User) :
    containsKey ((k, v) :: m) k = true := by
  simp [containsKey]

/-- Lookup right after an insert at the head returns the inserted user. -/
lemma getUser_cons_self (m : Users) (k : String) (v : User) :
    getUser ((k, v) :: m) k = some v := by
  simp [getUser, List.find?]

/-! Claim theorems. -/

/-- C1, counterexample: the claim extends the authenticated-only-if-live
    invariant to GET /api/is-logged-in, but check_login never consults the
    Session Store. With secret "s" at time 0, the token signed over claims
    (sub 1, email a@b.com, exp 1000) is structurally valid, its Session Record
    is absent from an empty store, and check_login still reports the caller as
    logged in. -/
theorem spec_c1_counterexample :
    decodeJwt (.signed ⟨"1", "a@b.com", 1000⟩ "s") "s" 0 = .ok ⟨"1", "a@b.com", 1000⟩
    ∧ RedisConn.existsKey ⟨false, false, []⟩ (.signed ⟨"1", "a@b.com", 1000⟩ "s") = .ok false
    ∧ check_login "s" 0 (some (.ascii (.bearer (.signed ⟨"1", "a@b.com", 1000⟩ "s"))))
        = { is_logged_in := true, user := some "a@b.com" } := by
  refine ⟨rfl, rfl, by decide⟩

/-- C1, amended: the both-structurally-valid-and-present requirement holds for
    GET /api/data: a 200 implies the token decoded and its record existed, and
    a token whose record is absent is rejected with 401 even though it decodes.
    GET /api/is-logged-in instead reports the caller authenticated exactly when
    the token is structurally valid, without consulting the Session Store. -/
theorem spec_c1_amended (jwt_secret : String) (redis : RedisClient) (now : Nat) :
    (∀ hdr payload, get_data jwt_secret redis now hdr = .ok payload →
      ∃ tok c conn, hdr = some (.ascii (.bearer tok))
        ∧ decodeJwt tok jwt_secret now = .ok c
        ∧ redis.get_connection = .ok conn
        ∧ conn.existsKey tok = .ok true)
    ∧ (∀ tok c, decodeJwt tok jwt_secret now = .ok c →
        redis.connFail = false → redis.conn.readFail = false →
        redis.conn.entries.any (fun en => en.key == tok) = false →
        get_data jwt_secret redis now (some (.ascii (.bearer tok))) = .error .unauthorized)
    ∧ (∀ hdr, (check_login jwt_secret now hdr).is_logged_in = true ↔
        ∃ tok c, hdr = some (.ascii (.bearer tok)) ∧ decodeJwt tok jwt_secret now = .ok c) := by
  refine ⟨?_, ?_, ?_⟩
  · intro hdr payload h
    match hdr with
    | none => simp [get_data] at h
    | some .nonAscii => simp [get_data] at h
    | some (.ascii (.other s)) => simp [get_data] at h
    | some (.ascii (.bearer tok)) =>
      refine ⟨tok, ?_⟩
      cases hdec : decodeJwt tok jwt_secret now with
      | error e => simp [get_data, hdec] at h
      | ok c =>
        by_cases hc : redis.connFail
        · simp [get_data, hdec, RedisClient.get_connection, hc] at h
        · by_cases hr : redis.conn.readFail
          · simp [get_data, hdec, RedisClient.get_connection, RedisConn.existsKey, hc, hr] at h
          · cases ha : redis.conn.entries.any (fun en => en.key == tok) with
            | false =>
              simp [get_data, hdec, RedisClient.get_connection, RedisConn.existsKey,
                hc, hr, ha] at h
            | true =>
              exact ⟨c, redis.conn, rfl, rfl,
                by simp [RedisClient.get_connection, hc],
                by simp [RedisConn.existsKey, hr, ha]⟩
  · intro tok c hdec hc hr ha
    simp [get_data, hdec, RedisClient.get_connection, RedisConn.existsKey, hc, hr, ha]
  · intro hdr
    match hdr with
    | none => simp [check_login, extractToken, TokenStr.isEmptyStr]
    | some .nonAscii => simp [check_login, extractToken, TokenStr.isEmptyStr]
    | some (.ascii (.other s)) => simp [check_login, extractToken, TokenStr.isEmptyStr]
    | some (.ascii (.bearer tok)) =>
      cases tok with
      | garbage s =>
        by_cases hs : s = ""
        · subst hs
          simp [check_login, extractToken, TokenStr.isEmptyStr, decodeJwt]
        · simp [check_login, extractToken, TokenStr.isEmptyStr, decodeJwt, hs]
      | signed c key =>
        cases hdec : decodeJwt (.signed c key) jwt_secret now with
        | error e => simp [check_login, extractToken, TokenStr.isEmptyStr, hdec]
        | ok c2 => simp [check_login, extractToken, TokenStr.isEmptyStr, hdec]

/-- C1, amended, witness: concrete instance of the record-absent branch at
    secret "s", time 0, an empty store, and the token of the counterexample. -/
theorem spec_c1_amended_witness :
    get_data "s" ⟨false, ⟨false, false, []⟩⟩ 0
      (some (.ascii (.bearer (.signed ⟨"1", "a@b.com", 1000⟩ "s"))))
      = .error .unauthorized := by
  exact (spec_c1_amended "s" ⟨false, ⟨false, false, []⟩⟩ 0).2.1
    (.signed ⟨"1", "a@b.com", 1000⟩ "s") ⟨"1", "a@b.com", 1000⟩
    rfl rfl rfl rfl

/-- C3: full status map of GET /api/data. Absent, non ASCII or non Bearer
    Authorization header gives 401; JWT decode failure gives 401; connection
    failure or a failing existence check gives 500 (fail closed); an absent
    record gives 401; and only when every check passes is the 200 payload
    served. -/
theorem spec_c3_get_data_status_map (jwt_secret : String) (redis : RedisClient) (now : Nat) :
    (get_data jwt_secret redis now none = .error .unauthorized)
    ∧ (get_data jwt_secret redis now (some .nonAscii) = .error .unauthorized)
    ∧ (∀ s, get_data jwt_secret redis now (some (.ascii (.other s))) = .error .unauthorized)
    ∧ (∀ tok e, decodeJwt tok jwt_secret now = .error e →
        get_data jwt_secret redis now (some (.ascii (.bearer tok))) = .error .unauthorized)
    ∧ (∀ tok c, decodeJwt tok jwt_secret now = .ok c → redis.connFail = true →
        get_data jwt_secret redis now (some (.ascii (.bearer tok)))
          = .error .internalServerError)
    ∧ (∀ tok c, decodeJwt tok jwt_secret now = .ok c → redis.connFail = false →
        redis.conn.readFail = true →
        get_data jwt_secret redis now (some (.ascii (.bearer tok)))
          = .error .internalServerError)
    ∧ (∀ tok c, decodeJwt tok jwt_secret now = .ok c → redis.connFail = false →
        redis.conn.readFail = false →
        redis.conn.entries.any (fun en => en.key == tok) = false →
        get_data jwt_secret redis now (some (.ascii (.bearer tok))) = .error .unauthorized)
    ∧ (∀ tok c, decodeJwt tok jwt_secret now = .ok c → redis.connFail = false →
        redis.conn.readFail = false →
        redis.conn.entries.any (fun en => en.key == tok) = true →
        get_data jwt_secret redis now (some (.ascii (.bearer tok)))
          = .ok (mockPayload c.email)) := by
  refine ⟨by simp [get_data], by simp [get_data], fun s => by simp [get_data],
    fun tok e hdec => by simp [get_data, hdec],
    fun tok c hdec hc => by simp [get_data, hdec, RedisClient.get_connection, hc],
    fun tok c hdec hc hr => by
      simp [get_data, hdec, RedisClient.get_connection, RedisConn.existsKey, hc, hr],
    fun tok c hdec hc hr ha => by
      simp [get_data, hdec, RedisClient.get_connection, RedisConn.existsKey, hc, hr, ha],
    fun tok c hdec hc hr ha => by
      simp [get_data, hdec, RedisClient.get_connection, RedisConn.existsKey, hc, hr, ha]⟩

/-- C3, witness: the success conjunct at secret "s", time 0, a store holding
    the record for the token, and the bearer header carrying it. -/
theorem spec_c3_get_data_status_map_witness :
    get_data "s" ⟨false, ⟨false, false, [⟨.signed ⟨"7", "a@b.com", 3700⟩ "s", "valid", 172800⟩]⟩⟩ 0
      (some (.ascii (.bearer (.signed ⟨"7", "a@b.com", 3700⟩ "s"))))
      = .ok (mockPayload "a@b.com") := by
  exact (spec_c3_get_data_status_map "s"
    ⟨false, ⟨false, false, [⟨.signed ⟨"7", "a@b.com", 3700⟩ "s", "valid", 172800⟩]⟩⟩ 0
    ).2.2.2.2.2.2.2 (.signed ⟨"7", "a@b.com", 3700⟩ "s") ⟨"7", "a@b.com", 3700⟩
    rfl rfl rfl (by decide)

/-- C8: GET /api/is-logged-in is total: the handler returns a LoginStatus body
    (its Lean type, like the Rust handler type Json of LoginStatus, admits no
    error status). A missing header, a non ASCII header, a header without the
    Bearer prefix, or a token that fails verification all yield false/none, and
    a verifying token yields true with the embedded email. -/
theorem spec_c8_is_logged_in_total (jwt_secret : String) (now : Nat) :
    (check_login jwt_secret now none = { is_logged_in := false, user := none })
    ∧ (check_login jwt_secret now (some .nonAscii)
        = { is_logged_in := false, user := none })
    ∧ (∀ s, check_login jwt_secret now (some (.ascii (.other s)))
        = { is_logged_in := false, user := none })
    ∧ (∀ tok e, decodeJwt tok jwt_secret now = .error e →
        check_login jwt_secret now (some (.ascii (.bearer tok)))
          = { is_logged_in := false, user := none })
    ∧ (∀ tok c, decodeJwt tok jwt_secret now = .ok c →
        check_login jwt_secret now (some (.ascii (.bearer tok)))
          = { is_logged_in := true, user := some c.email }) := by
  refine ⟨rfl, rfl, fun s => rfl, ?_, ?_⟩
  · intro tok e hdec
    cases tok with
    | garbage s =>
      by_cases hs : s = ""
      · subst hs; simp [check_login, extractToken, TokenStr.isEmptyStr]
      · simp [check_login, extractToken, TokenStr.isEmptyStr, hs, hdec]
    | signed c key =>
      simp [check_login, extractToken, TokenStr.isEmptyStr, hdec]
  · intro tok c hdec
    cases tok with
    | garbage s => simp [decodeJwt] at hdec
    | signed c2 key =>
      simp [check_login, extractToken, TokenStr.isEmptyStr, hdec]

/-- C8, witness: the failed-verification conjunct at a bad-signature token. -/
theorem spec_c8_is_logged_in_total_witness :
    check_login "s" 0 (some (.ascii (.bearer (.signed ⟨"1", "a@b.com", 1000⟩ "t"))))
      = { is_logged_in := false, user := none } := by
  exact (spec_c8_is_logged_in_total "s" 0).2.2.2.1
    (.signed ⟨"1", "a@b.com", 1000⟩ "t") .badSignature rfl

/-- C9: evidence against the claim that the directory lock is released before
    the Session Store write. In the login handler the MutexGuard is acquired on
    the first line and never dropped explicitly, so it is released only at
    handler return: on the success path the lock is held during both Redis
    network calls (get_connection and set_ex). -/
theorem spec_c9_lock_held_across_store_write :
    lockHeldAt loginSuccessTrace .redisWrite = true
    ∧ lockHeldAt loginSuccessTrace .redisConnect = true
    ∧ LoginEvent.isNetworkCall .redisWrite = true
    ∧ loginSuccessTrace.getLast? = some .lockRelease := by
  refine ⟨by decide, by decide, by decide, by decide⟩

/-- C2: after credential verification passes, a failure to obtain a Redis
    connection or to write the Session Record makes login return 500 with no
    token; and whenever login does return a token, the connection and the write
    both succeeded and the returned connection state holds the Session Record
    for that exact token, so every token handed out is registered as live. -/
theorem spec_c2_token_only_after_store_write
    (users : Users) (jwt_secret : String) (redis : RedisClient)
    (verifyFn : String → String → Bool) (now : Nat) (req : LoginRequest) :
    (∀ user, getUser users req.email = some user →
      verifyFn req.password user.password_hash = true →
      (redis.connFail = true ∨ redis.conn.writeFail = true) →
      login users jwt_secret redis verifyFn now req = .error .internalServerError)
    ∧ (∀ resp conn2, login users jwt_secret redis verifyFn now req = .ok (resp, conn2) →
        redis.connFail = false ∧ redis.conn.writeFail = false
        ∧ (⟨resp.access_token, "valid", 172800⟩ : RedisEntry) ∈ conn2.entries) := by
  constructor
  · intro user hu hv hfail
    by_cases hc : redis.connFail
    · simp [login, hu, hv, RedisClient.get_connection, hc]
    · rcases hfail with h | h
      · exact absurd h hc
      · simp [login, hu, hv, RedisClient.get_connection, RedisConn.set_ex, hc, h]
  · intro resp conn2 hok
    cases hg : getUser users req.email with
    | none => simp [login, hg] at hok
    | some user =>
      by_cases hv : verifyFn req.password user.password_hash
      · by_cases hc : redis.connFail
        · simp [login, hg, hv, RedisClient.get_connection, hc] at hok
        · by_cases hw : redis.conn.writeFail
          · simp [login, hg, hv, RedisClient.get_connection, RedisConn.set_ex, hc, hw] at hok
          · simp [login, hg, hv, RedisClient.get_connection, RedisConn.set_ex, hc, hw] at hok
            obtain ⟨h1, h2⟩ := hok
            refine ⟨by simp [hc], by simp [hw], ?_⟩
            rw [← h2, ← h1]
            exact List.mem_cons_self _ _
      · simp [login, hg, hv] at hok

/-- C2, witness: a concrete successful login whose returned connection holds
    the Session Record of the returned token. -/
theorem spec_c2_token_only_after_store_write_witness :
    (⟨.signed ⟨"7", "a@b.com", 3700⟩ "s", "valid", 172800⟩ : RedisEntry) ∈
      (RedisConn.mk false false
        [⟨.signed ⟨"7", "a@b.com", 3700⟩ "s", "valid", 172800⟩]).entries := by
  have h := (spec_c2_token_only_after_store_write
    [("a@b.com", ⟨7, "a@b.com", "H"⟩)] "s" ⟨false, ⟨false, false, []⟩⟩
    (fun _ _ => true) 100 ⟨"a@b.com", "pw"⟩).2
    ⟨.signed ⟨"7", "a@b.com", 3700⟩ "s"⟩
    ⟨false, false, [⟨.signed ⟨"7", "a@b.com", 3700⟩ "s", "valid", 172800⟩]⟩ rfl
  exact h.2.2

/-- C5: login reports one undifferentiated 401 with no body on failed
    authentication: an unknown email and a failed credential verification for
    an existing user produce results that are definitionally the same error,
    and in particular two arbitrary login calls failing for the two different
    reasons return identical responses. -/
theorem spec_c5_uniform_unauthorized
    (users : Users) (jwt_secret : String) (redis : RedisClient)
    (verifyFn : String → String → Bool) (now : Nat) (req : LoginRequest)
    (users2 : Users) (jwt_secret2 : String) (redis2 : RedisClient)
    (verifyFn2 : String → String → Bool) (now2 : Nat) (req2 : LoginRequest) :
    (getUser users req.email = none →
      login users jwt_secret redis verifyFn now req = .error .unauthorized)
    ∧ (∀ user, getUser users req.email = some user →
        verifyFn req.password user.password_hash = false →
        login users jwt_secret redis verifyFn now req = .error .unauthorized)
    ∧ (getUser users req.email = none →
        ∀ user2, getUser users2 req2.email = some user2 →
          verifyFn2 req2.password user2.password_hash = false →
          login users jwt_secret redis verifyFn now req
            = login users2 jwt_secret2 redis2 verifyFn2 now2 req2) := by
  refine ⟨fun h => by simp [login, h], fun user hu hv => by simp [login, hu, hv], ?_⟩
  intro h1 user2 hu2 hv2
  rw [show login users jwt_secret redis verifyFn now req = .error .unauthorized from
    by simp [login, h1]]
  rw [show login users2 jwt_secret2 redis2 verifyFn2 now2 req2 = .error .unauthorized from
    by simp [login, hu2, hv2]]

/-- C5, witness: the unknown-email case and the wrong-password case at concrete
    states return the same response. -/
theorem spec_c5_uniform_unauthorized_witness :
    login [] "s" ⟨false, ⟨false, false, []⟩⟩ (fun _ _ => true) 0 ⟨"a@b.com", "pw"⟩
      = login [("c@d.com", ⟨3, "c@d.com", "H"⟩)] "t" ⟨true, ⟨true, true, []⟩⟩
          (fun _ _ => false) 9 ⟨"c@d.com", "bad"⟩ := by
  exact (spec_c5_uniform_unauthorized
    [] "s" ⟨false, ⟨false, false, []⟩⟩ (fun _ _ => true) 0 ⟨"a@b.com", "pw"⟩
    [("c@d.com", ⟨3, "c@d.com", "H"⟩)] "t" ⟨true, ⟨true, true, []⟩⟩
    (fun _ _ => false) 9 ⟨"c@d.com", "bad"⟩).2.2
    rfl ⟨3, "c@d.com", "H"⟩ rfl rfl

/-- C7: every successful login returns a token whose embedded expiry is the
    issuance time plus exactly 3600 seconds, signed over the user identity with
    the service secret, and the Session Record written at the head of the store
    state is keyed by that exact token string with value "valid" and
    time-to-live exactly 172800 seconds. -/
theorem spec_c7_dual_expiry
    (users : Users) (jwt_secret : String) (redis : RedisClient)
    (verifyFn : String → String → Bool) (now : Nat) (req : LoginRequest) :
    ∀ resp conn2, login users jwt_secret redis verifyFn now req = .ok (resp, conn2) →
      ∃ user, getUser users req.email = some user
        ∧ resp.access_token
            = .signed ⟨toString user.id, user.email, now + 3600⟩ jwt_secret
        ∧ conn2.entries.head? = some ⟨resp.access_token, "valid", 172800⟩ := by
  intro resp conn2 hok
  cases hg : getUser users req.email with
  | none => simp [login, hg] at hok
  | some user =>
    by_cases hv : verifyFn req.password user.password_hash
    · by_cases hc : redis.connFail
      · simp [login, hg, hv, RedisClient.get_connection, hc] at hok
      · by_cases hw : redis.conn.writeFail
        · simp [login, hg, hv, RedisClient.get_connection, RedisConn.set_ex, hc, hw] at hok
        · simp [login, hg, hv, RedisClient.get_connection, RedisConn.set_ex, hc, hw,
            create_jwt] at hok
          obtain ⟨h1, h2⟩ := hok
          exact ⟨user, rfl, by rw [← h1], by rw [← h2, ← h1]; rfl⟩
    · simp [login, hg, hv] at hok

/-- C7, witness: concrete successful login; the token expiry is 100 + 3600 and
    the record at the head of the written state carries value "valid" and
    time-to-live 172800. -/
theorem spec_c7_dual_expiry_witness :
    ∃ user, getUser [("a@b.com", ⟨7, "a@b.com", "H"⟩)] "a@b.com" = some user
      ∧ (AuthResponse.mk (.signed ⟨"7", "a@b.com", 3700⟩ "s")).access_token
          = .signed ⟨toString user.id, user.email, 100 + 3600⟩ "s"
      ∧ (RedisConn.mk false false
          [⟨.signed ⟨"7", "a@b.com", 3700⟩ "s", "valid", 172800⟩]).entries.head?
          = some ⟨(AuthResponse.mk (.signed ⟨"7", "a@b.com", 3700⟩ "s")).access_token,
              "valid", 172800⟩ := by
  exact spec_c7_dual_expiry
    [("a@b.com", ⟨7, "a@b.com", "H"⟩)] "s" ⟨false, ⟨false, false, []⟩⟩
    (fun _ _ => true) 100 ⟨"a@b.com", "pw"⟩
    ⟨.signed ⟨"7", "a@b.com", 3700⟩ "s"⟩
    ⟨false, false, [⟨.signed ⟨"7", "a@b.com", 3700⟩ "s", "valid", 172800⟩]⟩ rfl

/-- C4: registering a fresh email returns 201 and adds exactly one User (the
    directory becomes the new binding consed onto the old one); any second
    register call for a key already present returns 409 and leaves the whole
    directory unchanged; in particular, after the fresh registration, a second
    call with the same email returns 409, the directory is unchanged, and the
    lookup still yields the first user record with its id and digest. -/
theorem spec_c4_register_duplicate_conflict (users : Users) (email pw1 pw2 : String)
    (uuid1 uuid2 : Nat) (hashFn : String → String)
    (h : containsKey users email = false) :
    register users uuid1 hashFn ⟨email, pw1⟩
      = (.ok .created, (email, ⟨uuid1, email, hashFn pw1⟩) :: users)
    ∧ (∀ m2 : Users, containsKey m2 email = true →
        register m2 uuid2 hashFn ⟨email, pw2⟩ = (.error .conflict, m2))
    ∧ register ((email, ⟨uuid1, email, hashFn pw1⟩) :: users) uuid2 hashFn ⟨email, pw2⟩
        = (.error .conflict, (email, ⟨uuid1, email, hashFn pw1⟩) :: users)
    ∧ getUser ((email, ⟨uuid1, email, hashFn pw1⟩) :: users) email
        = some ⟨uuid1, email, hashFn pw1⟩ := by
  refine ⟨?_, ?_, ?_, getUser_cons_self users email _⟩
  · rw [register]
    simp only [h, Bool.false_eq_true, if_false]
    rw [insertUser_of_not_containsKey users email _ h]
  · intro m2 h2
    rw [register]
    simp [h2]
  · rw [register]
    simp [containsKey_cons_self]

/-- C4, witness: register a fresh email then the same email again on the empty
    directory: 201 then 409, with the first record intact. -/
theorem spec_c4_register_duplicate_conflict_witness :
    register [] 1 (fun p => String.append p "#") ⟨"a@b.com", "pw1"⟩
      = (.ok .created, [("a@b.com", ⟨1, "a@b.com", "pw1#"⟩)])
    ∧ register [("a@b.com", ⟨1, "a@b.com", "pw1#"⟩)] 2
        (fun p => String.append p "#") ⟨"a@b.com", "pw2"⟩
        = (.error .conflict, [("a@b.com", ⟨1, "a@b.com", "pw1#"⟩)])
    ∧ getUser [("a@b.com", ⟨1, "a@b.com", "pw1#"⟩)] "a@b.com"
        = some ⟨1, "a@b.com", "pw1#"⟩ := by
  have h := spec_c4_register_duplicate_conflict [] "a@b.com" "pw1" "pw2" 1 2
    (fun p => String.append p "#") rfl
  exact ⟨h.1, h.2.2.1, h.2.2.2⟩

/-- The directory invariant: every binding stores a user whose email field is
    the key of the binding. -/
def KeyedByEmail (m : Users) : Prop := ∀ p ∈ m, p.2.email = p.1

/-- A run of register calls starting from the empty directory created by
    UserStore::new, each with its generated uuid, most recent call first. -/
def runRegisters (hashFn : String → String) : List (Nat × RegisterRequest) → Users
  | [] => []
  | (uuid, req) :: rest => (register (runRegisters hashFn rest) uuid hashFn req).2

/-- C10: register preserves the key-equals-email invariant, every directory
    state reachable through register from the empty directory satisfies it, and
    therefore a successful login lookup by email yields a user whose email is
    the requested one. -/
theorem spec_c10_directory_keyed_by_email :
    (∀ (m : Users) (uuid : Nat) (hashFn : String → String) (req : RegisterRequest),
      KeyedByEmail m → KeyedByEmail (register m uuid hashFn req).2)
    ∧ (∀ (hashFn : String → String) (rs : List (Nat × RegisterRequest)),
        KeyedByEmail (runRegisters hashFn rs))
    ∧ (∀ (hashFn : String → String) (rs : List (Nat × RegisterRequest))
        (email : String) (u : User),
        getUser (runRegisters hashFn rs) email = some u → u.email = email) := by
  have hpres : ∀ (m : Users) (uuid : Nat) (hashFn : String → String)
      (req : RegisterRequest), KeyedByEmail m → KeyedByEmail (register m uuid hashFn req).2 := by
    intro m uuid hashFn req hm
    rw [register]
    by_cases hk : containsKey m req.email
    · simpa [hk] using hm
    · simp only [hk, Bool.false_eq_true, if_false]
      intro p hp
      rcases List.mem_cons.mp hp with hhead | htail
      · rw [hhead]
      · exact hm p (List.mem_of_mem_filter htail)
  have hrun : ∀ (hashFn : String → String) (rs : List (Nat × RegisterRequest)),
      KeyedByEmail (runRegisters hashFn rs) := by
    intro hashFn rs
    induction rs with
    | nil => intro p hp; simp [runRegisters] at hp
    | cons r rest ih =>
      rw [runRegisters]
      exact hpres _ r.1 hashFn r.2 ih
  refine ⟨hpres, hrun, ?_⟩
  intro hashFn rs email u hu
  unfold getUser at hu
  cases hf : (runRegisters hashFn rs).find? (fun p => p.1 == email) with
  | none => rw [hf] at hu; simp at hu
  | some p =>
    rw [hf] at hu
    simp only [Option.map] at hu
    injection hu with hu
    have hkey : (p.1 == email) = true := by simpa using List.find?_some hf
    have hmem : p ∈ runRegisters hashFn rs := List.mem_of_find?_eq_some hf
    have hinv := hrun hashFn rs p hmem
    rw [← hu, hinv]
    exact eq_of_beq hkey

/-- C10, witness: the invariant after a concrete register call on the empty
    directory, via the preservation conjunct. -/
theorem spec_c10_directory_keyed_by_email_witness :
    KeyedByEmail (register [] 1 (fun p => p) ⟨"a@b.com", "pw"⟩).2 := by
  exact spec_c10_directory_keyed_by_email.1 [] 1 (fun p => p) ⟨"a@b.com", "pw"⟩
    (by intro p hp; simp at hp)

/-- C6: for each configured public service segment, a gateway request whose
    path is the public prefix followed by rest is forwarded to the matching
    internal base address at /api/ followed by rest, with the method, the
    headers and the fully read body passed through unmodified, and the upstream
    response relayed; a path matching none of the configured prefixes yields
    404 for every network, so no backend is contacted. -/
theorem spec_c6_gateway_forwarding (st : GwConfig) (net : Network) (build : Builder) :
    (∀ (rest : Str) (req : ProxyReq) (body : List Nat), req.bodyRead = .ok body →
      proxy_request st net build (lit "/api/auth/" ++ rest) req
        = relay build
            (net (st.auth_base_url ++ (lit "/api/" ++ rest)) req.method req.headers body))
    ∧ (∀ (rest : Str) (req : ProxyReq) (body : List Nat), req.bodyRead = .ok body →
      proxy_request st net build (lit "/api/data/" ++ rest) req
        = relay build
            (net (st.data_base_url ++ (lit "/api/" ++ rest)) req.method req.headers body))
    ∧ (∀ (rest : Str) (req : ProxyReq) (body : List Nat), req.bodyRead = .ok body →
      proxy_request st net build (lit "/api/test/" ++ rest) req
        = relay build
            (net (st.test_base_url ++ (lit "/api/" ++ rest)) req.method req.headers body))
    ∧ (∀ (path : Str) (req : ProxyReq),
        (lit "/api/auth/").isPrefixOf path = false →
        (lit "/api/data/").isPrefixOf path = false →
        (lit "/api/test/").isPrefixOf path = false →
        proxy_request st net build path req = .error .notFound) := by
  refine ⟨?_, ?_, ?_, ?_⟩
  · intro rest req body hb
    have hpre := isPrefixOf_append_self (lit "/api/auth/") rest
    simp only [proxy_request, hpre, if_true, hb]
    rfl
  · intro rest req body hb
    have hno1 : (lit "/api/auth/").isPrefixOf (lit "/api/data/" ++ rest) = false := rfl
    have hpre := isPrefixOf_append_self (lit "/api/data/") rest
    simp only [proxy_request, hno1, hpre, if_true, Bool.false_eq_true, if_false, hb]
    rfl
  · intro rest req body hb
    have hno1 : (lit "/api/auth/").isPrefixOf (lit "/api/test/" ++ rest) = false := rfl
    have hno2 : (lit "/api/data/").isPrefixOf (lit "/api/test/" ++ rest) = false := rfl
    have hpre := isPrefixOf_append_self (lit "/api/test/") rest
    simp only [proxy_request, hno1, hno2, hpre, if_true, Bool.false_eq_true, if_false, hb]
    rfl
  · intro path req h1 h2 h3
    simp [proxy_request, h1, h2, h3]

/-- C6, witness: the auth conjunct at path /api/auth/login with a concrete
    request, network and builder: the forwarded request preserves the method
    POST, the singleton header list and the body bytes. -/
theorem spec_c6_gateway_forwarding_witness :
    proxy_request ⟨lit "http://auth-service:8080", lit "D", lit "T"⟩
      (fun url m _ b => .ok ⟨200, [("h", String.mk url ++ m)], .ok b⟩)
      (fun s hs b => .ok ⟨s, hs, b⟩)
      (lit "/api/auth/" ++ lit "login") ⟨"POST", [("k", "v")], .ok [9, 8]⟩
      = relay (fun s hs b => .ok ⟨s, hs, b⟩)
          ((fun url m _ b => .ok (⟨200, [("h", String.mk url ++ m)], .ok b⟩ : UpstreamResp))
            (lit "http://auth-service:8080" ++ (lit "/api/" ++ lit "login"))
            "POST" [("k", "v")] [9, 8]) := by
  exact (spec_c6_gateway_forwarding ⟨lit "http://auth-service:8080", lit "D", lit "T"⟩
    (fun url m _ b => .ok ⟨200, [("h", String.mk url ++ m)], .ok b⟩)
    (fun s hs b => .ok ⟨s, hs, b⟩)).1
    (lit "login") ⟨"POST", [("k", "v")], .ok [9, 8]⟩ [9, 8] rfl

end RustMicro
